import Mathlib

/-
  Verification development for the portfolio front-end scripts.

  The repository ships three browser scripts:
    app/static/js/smoothscroll.js  (scroll navigator, CertificateManager)
    app/static/js/projects.js      (ProjectManager)
    plus a MobileHeaderHandler class bundled with smoothscroll.js.

  This file gives a shallow embedding of the data model and the operations of
  those scripts.  JavaScript numbers are modelled as rationals, optional JSON
  fields as Option String, and the DOM subtree owned by each component as an
  explicit piece of state that the embedded operations transform.
-/

/-! ### JavaScript value helpers

JSON record fields that may be absent are `Option String`; `none` stands for
the JavaScript value `undefined`. -/

/-- JavaScript truthiness of a possibly-absent string: `undefined` and the
empty string are falsy, every other string is truthy. -/
def truthy : Option String → Bool
  | none => false
  | some s => s ≠ ""

/-- The JavaScript expression `a || b` on two possibly-absent strings: the
first operand when it is truthy, otherwise the second. -/
def jsOr (a b : Option String) : Option String :=
  if truthy a then a else b

/-- The JavaScript expression `o || d` where `d` is a string literal default. -/
def strOr (o : Option String) (d : String) : String :=
  if truthy o then o.getD "" else d

/-- Stringification of a possibly-absent string, as performed by template
literals and by the DOM textContent setter: `undefined` becomes the literal
text "undefined". -/
def jsStr : Option String → String
  | none => "undefined"
  | some s => s

/-! ### Certificate gallery (smoothscroll.js, class CertificateManager)

A certificate record as consumed by CertificateManager.  All fields are read
with truthiness fallbacks in the source, so all are modelled as optional. -/

structure Certificate where
  name : Option String
  issuer : Option String
  image : Option String
  description : Option String
  deriving DecidableEq, Repr

/-- CertificateManager.calculateCardWidth, with the container offsetWidth and
the certificate count passed explicitly.  Constants from the source:
gap = 16, containerPadding = 24, empty fallback 160, single-card cap 300,
minimum card width 120. -/
def calculateCardWidth (containerWidth : ℚ) (numCards : ℕ) : ℚ :=
  let gap : ℚ := 16
  let containerPadding : ℚ := 24
  if numCards = 0 then 160
  else if numCards = 1 then min 300 (containerWidth - containerPadding)
  else
    let availableWidth : ℚ := containerWidth - containerPadding - gap * ((numCards : ℚ) - 1)
    let cardWidth : ℚ := availableWidth / (numCards : ℚ)
    max 120 cardWidth

/-- The data-bearing content of one rendered certificate card (div.cert-card
with its img, title and issuer children); static styling is not modelled. -/
structure CertCard where
  index : ℕ
  width : ℚ
  compact : Bool
  ariaLabel : String
  imageSrc : String
  imageAlt : String
  title : String
  issuer : String
  deriving DecidableEq, Repr

/-- A child node of the certificate container: either a rendered card or the
error paragraph written by loadCertificates on fetch failure. -/
inductive CertNode where
  | card (c : CertCard)
  | errorText (s : String)
  deriving DecidableEq, Repr

/-- One iteration of the forEach loop in CertificateManager.renderCertificates:
build the card for certificate `cert` at position `idx`. -/
def mkCertCard (cardWidth : ℚ) (isSmallCard : Bool) (idx : ℕ) (cert : Certificate) : CertCard :=
  { index := idx
    width := cardWidth
    compact := isSmallCard
    ariaLabel := "View certificate: " ++ jsStr cert.name ++ " issued by " ++ jsStr cert.issuer
    imageSrc := strOr cert.image ""
    imageAlt := strOr cert.name "Certificate image"
    title := strOr cert.name ""
    issuer := strOr cert.issuer "" }

/-- CertificateManager.renderCertificates: clears the container
(innerHTML = ''), then appends one card per certificate.  `container` is the
child list of the container element before the call; `w` its offsetWidth. -/
def renderCertificates (w : ℚ) (certs : List Certificate) (container : List CertNode) :
    List CertNode :=
  let container : List CertNode := []
  let cardWidth := calculateCardWidth w certs.length
  let isSmallCard : Bool := cardWidth ≤ 180
  container ++ (certs.enum.map fun p => CertNode.card (mkCertCard cardWidth isSmallCard p.1 p.2))

/-- The error text loadCertificates writes into the container on failure, for
the jsonPath '/static/data/cert.json' used by the auto-initialisation. -/
def certFailMessage : String :=
  "Failed to load certificates. Please check /static/data/cert.json."

/-- Outcome of the fetch plus JSON-parse step: a parsed array, or any failure
(non-2xx HTTP status, network error, or invalid JSON). -/
inductive FetchResult (α : Type) where
  | ok (data : α)
  | error
  deriving DecidableEq, Repr

/-- The state of a CertificateManager instance: the in-memory record array and
the child list of its container element. -/
structure CMState where
  certificates : List Certificate
  container : List CertNode
  deriving DecidableEq, Repr

/-- Constructor state: this.certificates = [] and an untouched container. -/
def cmInitial : CMState := { certificates := [], container := [] }

/-- CertificateManager.loadCertificates: on success store the parsed array; on
any failure replace the container contents with the error paragraph and leave
the record array untouched. -/
def loadCertificates (fetch : FetchResult (List Certificate)) (s : CMState) : CMState :=
  match fetch with
  | .ok data => { s with certificates := data }
  | .error => { s with container := [CertNode.errorText certFailMessage] }

/-- CertificateManager.init (after createModal): await loadCertificates, then
call renderCertificates unconditionally.  `w` is the container offsetWidth. -/
def certInit (fetch : FetchResult (List Certificate)) (w : ℚ) : CMState :=
  let s := loadCertificates fetch cmInitial
  { s with container := renderCertificates w s.certificates s.container }

/-- Claim C2: calculateCardWidth returns 142.4 for width 800 with 5 records,
300 for width 800 with 1 record, and for n ≥ 2 records in general
max(120, (containerWidth − 24 − 16·(n−1))/n). -/
theorem calculateCardWidth_spec :
    calculateCardWidth 800 5 = 142.4 ∧
    calculateCardWidth 800 1 = 300 ∧
    ∀ (w : ℚ) (n : ℕ), 2 ≤ n →
      calculateCardWidth w n = max 120 ((w - 24 - 16 * ((n : ℚ) - 1)) / (n : ℚ)) := by
  refine ⟨by norm_num [calculateCardWidth], by norm_num [calculateCardWidth], ?_⟩
  intro w n hn
  have h0 : n ≠ 0 := by omega
  have h1 : n ≠ 1 := by omega
  simp [calculateCardWidth, h0, h1]

/-- Witness for claim C2 at width 800 with 5 records. -/
theorem calculateCardWidth_spec_witness :
    calculateCardWidth 800 5 = max 120 ((800 - 24 - 16 * ((5 : ℚ) - 1)) / (5 : ℚ)) :=
  calculateCardWidth_spec.2.2 800 5 (by norm_num)

/-! ### Project gallery (projects.js, class ProjectManager)

A project record.  The model-repository link is accepted under two aliases,
`huggingface` and `hugging_face`; every field is read with a truthiness check
in the source, so all are modelled as optional. -/

structure Project where
  title : Option String
  description : Option String
  image : Option String
  github : Option String
  huggingface : Option String
  hugging_face : Option String
  deriving DecidableEq, Repr

/-- The action button variants a project card can carry. -/
inductive ProjButton where
  | github
  | huggingface
  deriving DecidableEq, Repr

/-- The placeholder image URL used when a project has no image. -/
def projPlaceholder : String :=
  "https://via.placeholder.com/400x225/212121/ffffff?text=Project+Image"

/-- The data-bearing content of one rendered project card (div.project-card):
its data-project-index attribute, background image URL, title text, and the at
most one action button chosen by the if / else-if chain in the source. -/
structure ProjectCard where
  index : ℕ
  imageUrl : String
  title : String
  button : Option ProjButton
  deriving DecidableEq, Repr

/-- ProjectManager.createProjectCard: the github button is rendered when the
github field is truthy; otherwise the huggingface button when either alias is
truthy; otherwise no button. -/
def createProjectCard (project : Project) (index : ℕ) : ProjectCard :=
  let imageUrl := strOr project.image projPlaceholder
  let button : Option ProjButton :=
    if truthy project.github then some ProjButton.github
    else if truthy project.huggingface || truthy project.hugging_face then
      some ProjButton.huggingface
    else none
  { index := index
    imageUrl := imageUrl
    title := jsStr project.title
    button := button }

/-- ProjectManager.renderProjects on the resolved inner container: clear it
(innerHTML = ''), then append one card per project in order.  The source
returns early when the container elements are missing; the DOM contract of the
hosting page guarantees they exist, which this model assumes. -/
def renderProjects (projects : List Project) (container : List ProjectCard) :
    List ProjectCard :=
  let container : List ProjectCard := []
  container ++ (projects.enum.map fun p => createProjectCard p.2 p.1)

/-- The state of the shared project detail overlay (#project-modal): the
populated text fields, the reveal flags and hrefs of the two link blocks, and
whether the overlay itself is shown (hidden class removed, flex added). -/
structure ProjModal where
  title : String
  imageUrl : String
  description : String
  githubVisible : Bool
  githubHref : Option String
  hfVisible : Bool
  hfHref : Option String
  shown : Bool
  deriving DecidableEq, Repr

/-- The overlay as created by ProjectManager.createModal: empty fields, both
link blocks hidden, overlay hidden. -/
def projModalInit : ProjModal :=
  { title := "", imageUrl := "", description := "", githubVisible := false,
    githubHref := none, hfVisible := false, hfHref := none, shown := false }

/-- ProjectManager.showProjectModal: populate title, background image and
description, reveal each link block iff its field is truthy (setting the href
only in that case), and show the overlay. -/
def showProjectModal (project : Project) (m : ProjModal) : ProjModal :=
  let m := { m with
    title := jsStr project.title
    imageUrl := strOr project.image projPlaceholder
    description := jsStr project.description }
  let m :=
    if truthy project.github then
      { m with githubVisible := true, githubHref := project.github }
    else
      { m with githubVisible := false }
  let hfLink := jsOr project.huggingface project.hugging_face
  let m :=
    if truthy hfLink then
      { m with hfVisible := true, hfHref := hfLink }
    else
      { m with hfVisible := false }
  { m with shown := true }

/-- ProjectManager.hideProjectModal. -/
def hideProjectModal (m : ProjModal) : ProjModal :=
  { m with shown := false }

/-- The document-level click listener, restricted to a click landing on a
project card: showProjectModal on that card's record. -/
def projCardOnClick (project : Project) (m : ProjModal) : ProjModal :=
  showProjectModal project m

/-- The only document-level keydown listener installed by projects.js: close
the overlay on Escape while it is shown.  Project cards install no keydown
handler of their own (and receive no tabindex), so a key pressed with a card
focused reaches only this listener. -/
def projDocKeydown (key : String) (m : ProjModal) : ProjModal :=
  if key = "Escape" ∧ m.shown then hideProjectModal m else m

/-- The error text ProjectManager.showErrorMessage appends (as a div) to the
outer project section on fetch failure. -/
def projFailMessage : String :=
  "Failed to load projects. Please check if projects.json exists."

/-- The state of a ProjectManager instance: the record array, the child cards
of the resolved inner container, the error divs appended to the outer project
section, and a count of renderProjects invocations. -/
structure PMState where
  projects : List Project
  projectContainer : List ProjectCard
  sectionErrors : List String
  renderCount : ℕ
  deriving DecidableEq, Repr

/-- Constructor state: this.projects = [], untouched containers. -/
def pmInitial : PMState :=
  { projects := [], projectContainer := [], sectionErrors := [], renderCount := 0 }

/-- Run renderProjects on the managed state (bumping the invocation count). -/
def pmRender (s : PMState) : PMState :=
  { s with projectContainer := renderProjects s.projects s.projectContainer
           renderCount := s.renderCount + 1 }

/-- ProjectManager.loadProjects: on success store the parsed array and render;
on any failure (non-ok status, network error, invalid JSON) append the error
message to the outer section, leaving the record array and container alone. -/
def loadProjects (fetch : FetchResult (List Project)) (s : PMState) : PMState :=
  match fetch with
  | .ok data => pmRender { s with projects := data }
  | .error => { s with sectionErrors := s.sectionErrors ++ [projFailMessage] }

/-- ProjectManager.initialize (after createModal): await loadProjects. -/
def projInit (fetch : FetchResult (List Project)) : PMState :=
  loadProjects fetch pmInitial

/-- JavaScript Array.prototype.splice(start, 1) for an in-range start index:
drop exactly the element at position `start`. -/
def jsSplice1 (l : List α) (start : ℕ) : List α :=
  l.take start ++ l.drop (start + 1)

/-- ProjectManager.removeProject: guarded by 0 ≤ index < projects.length,
splice out one element at the index, then re-render. -/
def removeProject (index : ℤ) (s : PMState) : PMState :=
  if 0 ≤ index ∧ index < s.projects.length then
    pmRender { s with projects := jsSplice1 s.projects index.toNat }
  else s

/-! ### Modal interaction shared by both galleries -/

/-- The state of the certificate detail overlay (#cert-modal): its populated
text fields, the background image URL, and whether display is 'flex'. -/
structure CertModal where
  title : String
  issuer : String
  desc : String
  imageUrl : String
  displayFlex : Bool
  deriving DecidableEq, Repr

/-- The overlay as created by CertificateManager.createModal: empty fields,
display 'none'. -/
def certModalInit : CertModal :=
  { title := "", issuer := "", desc := "", imageUrl := "", displayFlex := false }

/-- CertificateManager.showModal: populate the overlay from the record, with
the source's truthiness fallbacks, and set display to 'flex'. -/
def certShowModal (cert : Certificate) (m : CertModal) : CertModal :=
  { m with
    title := strOr cert.name ""
    issuer := if truthy cert.issuer then "Issued by " ++ jsStr cert.issuer else ""
    desc := strOr cert.description "No description available."
    imageUrl := strOr cert.image ""
    displayFlex := true }

/-- The click listener attached to each certificate card:
card.addEventListener('click', () => this.showModal(cert)). -/
def certCardOnClick (cert : Certificate) (m : CertModal) : CertModal :=
  certShowModal cert m

/-- The keydown listener attached to each certificate card: on Enter or Space,
preventDefault and showModal; any other key is ignored. -/
def certCardOnKeydown (key : String) (cert : Certificate) (m : CertModal) : CertModal :=
  if key = "Enter" ∨ key = " " then certShowModal cert m else m

/-! ### Scroll navigator (smoothscroll.js, DOMContentLoaded block)

CONFIG constants from the source. -/

def headerOffset : ℚ := 80
def highlightOffset : ℚ := 150

/-- The four inline style properties updateHighlighting writes on each nav
link. -/
structure NavLinkStyle where
  borderBottom : String
  paddingBottom : String
  transition : String
  opacity : String
  deriving DecidableEq, Repr

/-- Styling applied to the link at the active index. -/
def activeStyle : NavLinkStyle :=
  { borderBottom := "2px solid #ffffff", paddingBottom := "4px",
    transition := "all 0.3s ease", opacity := "1" }

/-- Styling applied to every other link. -/
def inactiveStyle : NavLinkStyle :=
  { borderBottom := "none", paddingBottom := "0",
    transition := "all 0.3s ease", opacity := "0.7" }

/-- The sections.forEach loop of updateHighlighting: running index `i`, the
current best index and best score (none stands for the initial Infinity, which
every finite distance beats); a section strictly closer to the trigger point
than the best so far takes over. -/
def bestLoop (trigger : ℚ) : List ℚ → ℕ → ℕ → Option ℚ → ℕ
  | [], _, bestIdx, _ => bestIdx
  | top :: rest, i, bestIdx, bestScore =>
    let distance := |trigger - top|
    match bestScore with
    | none => bestLoop trigger rest (i + 1) i (some distance)
    | some b =>
      if distance < b then bestLoop trigger rest (i + 1) i (some distance)
      else bestLoop trigger rest (i + 1) bestIdx (some b)

/-- The active index computed by updateHighlighting over the absolute top
edges of the resolved sections: activeIndex = 0, bestScore = Infinity, then
the forEach loop. -/
def computeActiveIndex (trigger : ℚ) (tops : List ℚ) : ℕ :=
  bestLoop trigger tops 0 0 none

/-- The navLinks.forEach loop of updateHighlighting: the link at the active
index receives the active styling, every other link the inactive styling (all
four properties are overwritten in both branches). -/
def applyHighlight (activeIndex : ℕ) : ℕ → List NavLinkStyle → List NavLinkStyle
  | _, [] => []
  | i, _ :: rest =>
    (if i = activeIndex then activeStyle else inactiveStyle)
      :: applyHighlight activeIndex (i + 1) rest

/-- updateHighlighting: a no-op when no sections resolved; otherwise compute
the trigger point (scroll position plus the highlight offset), find the
section minimising the distance to it, and restyle every nav link.  `tops` is
the list of absolute top edges (rect.top + scrollPosition) of the resolved
sections, in source order; `links` the nav link styles. -/
def updateHighlighting (scrollPosition : ℚ) (tops : List ℚ)
    (links : List NavLinkStyle) : List NavLinkStyle :=
  if tops.length = 0 then links
  else
    let triggerPoint := scrollPosition + highlightOffset
    let activeIndex := computeActiveIndex triggerPoint tops
    applyHighlight activeIndex 0 links

/-- Distance from the trigger point to the top edge of section `j`. -/
def secDist (t : ℚ) (tops : List ℚ) (j : ℕ) : ℚ :=
  |t - tops.getD j 0|

/-- The page's sections as seen by getElementById: id paired with absolute top
edge. -/
def getElementTop (dom : List (String × ℚ)) (sectionId : String) : Option ℚ :=
  List.lookup sectionId dom

/-- Outcome of one nav-link click: whether preventDefault ran, and the scroll
position the handler requested (none when no scroll was initiated). -/
structure ClickOutcome where
  prevented : Bool
  scrollTarget : Option ℚ
  deriving DecidableEq, Repr

/-- The test `targetHref.startsWith('#')`, decided on the string's character
list. -/
def startsWithHash (href : String) : Bool :=
  href.data.head? = some '#'

/-- The nav-link click handler.  `sivThrows` models scrollIntoView being
unavailable or throwing, `rectThrows` the same for getBoundingClientRect.
When the href is a fragment resolving to an existing section, preventDefault
runs; scrollIntoView with block 'start' requests the section's absolute top
edge, while the fallback methods request rect.top + scrollTop − headerOffset
(respectively offsetTop − headerOffset), both equal to the absolute top edge
minus the header offset. -/
def navClick (dom : List (String × ℚ)) (sivThrows rectThrows : Bool)
    (href : String) : ClickOutcome :=
  if startsWithHash href then
    match getElementTop dom (href.drop 1) with
    | some sectionTop =>
      if sivThrows = false then
        { prevented := true, scrollTarget := some sectionTop }
      else
        let targetPosition : ℚ :=
          if rectThrows = false then sectionTop - headerOffset
          else sectionTop - headerOffset
        { prevented := true, scrollTarget := some targetPosition }
    | none => { prevented := false, scrollTarget := none }
  else { prevented := false, scrollTarget := none }

/-! ### Mobile drawer controller (class MobileHeaderHandler)

Default option values from the source. -/

def mobileBreakpoint : ℚ := 900
def smallMobileBreakpoint : ℚ := 540

/-- The state of a MobileHeaderHandler instance.  `headerExists` records
whether the page has an element matching some header selector (a property of
the hosting document, constant across resizes); `headerFound` is whether
this.header is non-null; `headerVisible` whether that element's display is not
'none'. -/
structure MHState where
  headerExists : Bool
  headerFound : Bool
  headerVisible : Bool
  hamburger : Bool
  drawer : Bool
  backdrop : Bool
  isMobile : Bool
  isSmallMobile : Bool
  isOpen : Bool
  deriving DecidableEq, Repr

/-- MobileHeaderHandler.checkMobile: classify the viewport width against the
two breakpoints. -/
def checkMobile (width : ℚ) (s : MHState) : MHState :=
  { s with isMobile := decide (width ≤ mobileBreakpoint)
           isSmallMobile := decide (width ≤ smallMobileBreakpoint) }

/-- MobileHeaderHandler.findHeader: probe the selector list; when a header
element exists it is found, otherwise this.header keeps its previous value. -/
def findHeader (s : MHState) : MHState :=
  if s.headerExists then { s with headerFound := true } else s

/-- MobileHeaderHandler.setup: re-classify, then either build the mobile
apparatus and hide the original header (mobile, header found), degrade
silently (mobile, no header), or restore the original header and remove the
apparatus (desktop).  showOriginalHeader is a no-op while this.header is still
null. -/
def setup (width : ℚ) (s : MHState) : MHState :=
  let s := checkMobile width s
  if s.isMobile then
    let s := findHeader s
    if s.headerFound then
      { s with hamburger := true, drawer := true, backdrop := true, headerVisible := false }
    else s
  else
    let s := if s.headerFound then { s with headerVisible := true } else s
    { s with hamburger := false, drawer := false, backdrop := false }

/-- Whether the full mobile apparatus (hamburger button, drawer, backdrop) is
present. -/
def apparatusPresent (s : MHState) : Bool :=
  s.hamburger && s.drawer && s.backdrop

/-- The debounced resize listener: re-classify, and re-run setup exactly when
the mobile flag flipped. -/
def onResize (width : ℚ) (s : MHState) : MHState :=
  let wasMobile := s.isMobile
  let s1 := checkMobile width s
  if wasMobile ≠ s1.isMobile then setup width s1 else s1

/-! ### Helper lemmas for the scroll-spy argmin loop -/

/-- Loop invariant of the sections.forEach pass: if `b` is the distance of the
current best section `bi`, no section before position `i` beats it, and every
section before `bi` is strictly farther, then the loop over the remaining
suffix `l` of the global top list returns the first index of minimum distance
over the whole list. -/
theorem bestLoop_spec (t : ℚ) :
    ∀ (l glob : List ℚ) (i bi : ℕ) (b : ℚ),
      glob.length = i + l.length →
      (∀ j, j < l.length → l.getD j 0 = glob.getD (i + j) 0) →
      bi < i →
      b = secDist t glob bi →
      (∀ k, k < i → b ≤ secDist t glob k) →
      (∀ k, k < bi → b < secDist t glob k) →
      bestLoop t l i bi (some b) < glob.length ∧
      (∀ k, k < glob.length →
        secDist t glob (bestLoop t l i bi (some b)) ≤ secDist t glob k) ∧
      (∀ k, k < bestLoop t l i bi (some b) →
        secDist t glob (bestLoop t l i bi (some b)) < secDist t glob k) := by
  intro l
  induction l with
  | nil =>
    intro glob i bi b hlen hlink hbi hb hmin hfirst
    simp only [bestLoop]
    refine ⟨by simp at hlen; omega, ?_, ?_⟩
    · intro k hk
      have : k < i := by simp at hlen; omega
      exact hb ▸ hmin k this
    · intro k hk
      exact hb ▸ hfirst k hk
  | cons x rest ih =>
    intro glob i bi b hlen hlink hbi hb hmin hfirst
    have hx : x = glob.getD i 0 := by
      have h0 := hlink 0 (by simp)
      simpa using h0
    have hlen' : glob.length = (i + 1) + rest.length := by simp at hlen ⊢; omega
    have hlink' : ∀ j, j < rest.length → rest.getD j 0 = glob.getD ((i + 1) + j) 0 := by
      intro j hj
      have := hlink (j + 1) (by simp; omega)
      simpa [Nat.add_assoc, Nat.add_comm 1 j] using this
    simp only [bestLoop]
    by_cases hlt : |t - x| < b
    · rw [if_pos hlt]
      refine ih glob (i + 1) i (|t - x|) hlen' hlink' (by omega) ?_ ?_ ?_
      · simp [secDist, hx]
      · intro k hk
        rcases Nat.lt_succ_iff_lt_or_eq.mp hk with h | h
        · exact le_of_lt (lt_of_lt_of_le hlt (hmin k h))
        · subst h
          apply le_of_eq
          simp only [secDist]
          rw [hx]
      · intro k hk
        exact lt_of_lt_of_le hlt (hmin k hk)
    · rw [if_neg hlt]
      have hble : b ≤ |t - x| := le_of_not_lt hlt
      refine ih glob (i + 1) bi b hlen' hlink' (by omega) hb ?_ hfirst
      intro k hk
      rcases Nat.lt_succ_iff_lt_or_eq.mp hk with h | h
      · exact hmin k h
      · subst h
        calc b ≤ |t - x| := hble
          _ = secDist t glob k := by simp [secDist, hx]

/-- The active index is the first index of minimum distance among the resolved
sections. -/
theorem computeActiveIndex_spec (t : ℚ) (tops : List ℚ) (h : tops ≠ []) :
    computeActiveIndex t tops < tops.length ∧
    (∀ k, k < tops.length →
      secDist t tops (computeActiveIndex t tops) ≤ secDist t tops k) ∧
    (∀ k, k < computeActiveIndex t tops →
      secDist t tops (computeActiveIndex t tops) < secDist t tops k) := by
  match tops, h with
  | x :: rest, _ =>
    have h0 : computeActiveIndex t (x :: rest) = bestLoop t rest 1 0 (some |t - x|) := rfl
    rw [h0]
    refine bestLoop_spec t rest (x :: rest) 1 0 (|t - x|) (by simp [Nat.add_comm]) ?_
      (by omega) (by simp [secDist]) ?_ (by intro k hk; omega)
    · intro j hj
      simp [Nat.add_comm 1 j]
    · intro k hk
      have hk0 : k = 0 := by omega
      subst hk0
      simp [secDist]

/-- applyHighlight preserves the number of nav links. -/
theorem applyHighlight_length (a : ℕ) :
    ∀ (i : ℕ) (links : List NavLinkStyle),
      (applyHighlight a i links).length = links.length := by
  intro i links
  induction links generalizing i with
  | nil => rfl
  | cons x rest ih => simp [applyHighlight, ih]

/-- applyHighlight assigns the active styling exactly at the active index. -/
theorem applyHighlight_getD (a : ℕ) :
    ∀ (links : List NavLinkStyle) (i k : ℕ), k < links.length →
      (applyHighlight a i links).getD k inactiveStyle
        = if i + k = a then activeStyle else inactiveStyle := by
  intro links
  induction links with
  | nil => intro i k hk; simp at hk
  | cons x rest ih =>
    intro i k hk
    cases k with
    | zero => simp [applyHighlight]
    | succ k =>
      have hk' : k < rest.length := by simpa using hk
      simp only [applyHighlight, List.getD_cons_succ]
      rw [ih (i + 1) k hk']
      have harith : (i + 1) + k = i + (k + 1) := by omega
      rw [harith]

/-- Claim C3: with a non-empty list of resolved sections, the highlighting
pass marks as active exactly the section whose top edge minimises
|triggerPoint − sectionTop| (the first one on a tie), where the trigger point
is the scroll position plus the fixed highlight offset, and restyles the nav
link at the same index as active and all others as inactive; with zero
resolved sections it changes nothing. -/
theorem updateHighlighting_spec :
    (∀ (scroll : ℚ) (links : List NavLinkStyle),
        updateHighlighting scroll [] links = links) ∧
    activeStyle ≠ inactiveStyle ∧
    ∀ (scroll : ℚ) (tops : List ℚ) (links : List NavLinkStyle),
      tops ≠ [] → tops.length ≤ links.length →
      computeActiveIndex (scroll + highlightOffset) tops < tops.length ∧
      (∀ j, j < tops.length →
        secDist (scroll + highlightOffset) tops
            (computeActiveIndex (scroll + highlightOffset) tops)
          ≤ secDist (scroll + highlightOffset) tops j) ∧
      (∀ j, j < computeActiveIndex (scroll + highlightOffset) tops →
        secDist (scroll + highlightOffset) tops
            (computeActiveIndex (scroll + highlightOffset) tops)
          < secDist (scroll + highlightOffset) tops j) ∧
      (updateHighlighting scroll tops links).length = links.length ∧
      (∀ k, k < links.length →
        (updateHighlighting scroll tops links).getD k inactiveStyle
          = if k = computeActiveIndex (scroll + highlightOffset) tops then activeStyle
            else inactiveStyle) := by
  refine ⟨by intro scroll links; rfl, by decide, ?_⟩
  intro scroll tops links hne hle
  have hlen0 : ¬ tops.length = 0 := by
    simpa [List.length_eq_zero] using hne
  obtain ⟨h1, h2, h3⟩ := computeActiveIndex_spec (scroll + highlightOffset) tops hne
  have hunfold : updateHighlighting scroll tops links
      = applyHighlight (computeActiveIndex (scroll + highlightOffset) tops) 0 links := by
    simp [updateHighlighting, hlen0]
  refine ⟨h1, h2, h3, ?_, ?_⟩
  · rw [hunfold]; exact applyHighlight_length _ _ _
  · intro k hk
    rw [hunfold, applyHighlight_getD _ links 0 k hk]
    simp

/-- Witness for claim C3: scroll position 0 and sections with top edges 100
and 400; the trigger point is 150, so the first section (distance 50) wins and
link 0 is styled active. -/
theorem updateHighlighting_spec_witness :
    computeActiveIndex ((0 : ℚ) + highlightOffset) [100, 400]
        < ([100, 400] : List ℚ).length ∧
    (updateHighlighting 0 [100, 400] [inactiveStyle, inactiveStyle]).getD 0 inactiveStyle
        = activeStyle := by
  have h := updateHighlighting_spec.2.2 0 [(100 : ℚ), 400] [inactiveStyle, inactiveStyle]
    (by simp) (by simp)
  refine ⟨h.1, ?_⟩
  have hk := h.2.2.2.2 0 (by simp)
  rw [hk]
  have ha : computeActiveIndex ((0 : ℚ) + highlightOffset) [(100 : ℚ), 400] = 0 := by
    norm_num [computeActiveIndex, bestLoop, highlightOffset]
  rw [ha]
  simp

/-- truthiness distributes over the JavaScript or-expression. -/
theorem truthy_jsOr (a b : Option String) :
    truthy (jsOr a b) = (truthy a || truthy b) := by
  by_cases h : truthy a = true
  · simp [jsOr, h]
  · simp [jsOr, h]

/-- The fields of the project overlay after showProjectModal, as functions of
the record alone. -/
theorem showProjectModal_fields (p : Project) (m : ProjModal) :
    (showProjectModal p m).title = jsStr p.title ∧
    (showProjectModal p m).imageUrl = strOr p.image projPlaceholder ∧
    (showProjectModal p m).description = jsStr p.description ∧
    (showProjectModal p m).githubVisible = truthy p.github ∧
    (showProjectModal p m).hfVisible = truthy (jsOr p.huggingface p.hugging_face) ∧
    (showProjectModal p m).shown = true := by
  unfold showProjectModal
  by_cases hg : truthy p.github = true
  · by_cases hf : truthy (jsOr p.huggingface p.hugging_face) = true
    · simp [hg, hf]
    · have hf' : truthy (jsOr p.huggingface p.hugging_face) = false := by simpa using hf
      simp [hg, hf']
  · have hg' : truthy p.github = false := by simpa using hg
    by_cases hf : truthy (jsOr p.huggingface p.hugging_face) = true
    · simp [hg', hf]
    · have hf' : truthy (jsOr p.huggingface p.hugging_face) = false := by simpa using hf
      simp [hg', hf']

/-- The fields of the certificate overlay after showModal. -/
theorem certShowModal_fields (c : Certificate) (m : CertModal) :
    (certShowModal c m).title = strOr c.name "" ∧
    (certShowModal c m).issuer
      = (if truthy c.issuer then "Issued by " ++ jsStr c.issuer else "") ∧
    (certShowModal c m).desc = strOr c.description "No description available." ∧
    (certShowModal c m).imageUrl = strOr c.image "" ∧
    (certShowModal c m).displayFlex = true :=
  ⟨rfl, rfl, rfl, rfl, rfl⟩

/-- Claim C1 (evaluation at the failing input): after a failed certificate
fetch, loadCertificates does place the error paragraph in the container, but
init's unconditional renderCertificates call clears the container again, so
initialization completes with an empty container — no error message and no
cards (the record set does stay empty).  The project gallery, by contrast,
keeps its error message because it appends it outside the re-rendered
container and skips rendering on failure. -/
theorem certInit_error_message_erased :
    (loadCertificates FetchResult.error cmInitial).container
        = [CertNode.errorText certFailMessage] ∧
    (certInit FetchResult.error 800).certificates = [] ∧
    (certInit FetchResult.error 800).container = [] ∧
    (projInit FetchResult.error).projects = [] ∧
    (projInit FetchResult.error).projectContainer = [] ∧
    (projInit FetchResult.error).sectionErrors = [projFailMessage] :=
  ⟨rfl, rfl, rfl, rfl, rfl, rfl⟩

/-- Claim C4: the controller is in mobile mode iff the viewport width is at
most the configured breakpoint (900), and a resize that crosses the breakpoint
leaves exactly one of the original header and the hamburger-plus-drawer
apparatus present — assuming, per the DOM contract, that the page has a header
element, and that a header never located by the controller was never hidden by
it. -/
theorem mobileMode_invariant :
    (∀ (W : ℚ) (s : MHState),
        (checkMobile W s).isMobile = true ↔ W ≤ mobileBreakpoint) ∧
    ∀ (W : ℚ) (s : MHState),
      s.headerExists = true →
      (s.headerFound = false → s.headerVisible = true) →
      s.isMobile ≠ decide (W ≤ mobileBreakpoint) →
      (onResize W s).headerVisible = !(apparatusPresent (onResize W s)) := by
  constructor
  · intro W s
    simp [checkMobile]
  · intro W s hex hvis hcross
    by_cases hm : W ≤ mobileBreakpoint
    · have hd : decide (W ≤ mobileBreakpoint) = true := by simpa using hm
      rw [hd] at hcross
      have hsm : s.isMobile = false := by simpa using hcross
      simp [onResize, checkMobile, setup, findHeader, apparatusPresent, hex, hm, hsm]
    · have hd : decide (W ≤ mobileBreakpoint) = false := by simpa using hm
      rw [hd] at hcross
      have hsm : s.isMobile = true := by simpa using hcross
      by_cases hf : s.headerFound = true
      · simp [onResize, checkMobile, setup, findHeader, apparatusPresent, hex, hm, hsm, hf]
      · have hf' : s.headerFound = false := by simpa using hf
        simp [onResize, checkMobile, setup, findHeader, apparatusPresent, hex, hm, hsm, hf',
          hvis hf']

/-- Witness for claim C4: a desktop-mode state with a visible header and no
apparatus, resized to width 800 (crossing into mobile). -/
theorem mobileMode_invariant_witness :
    (onResize 800
        { headerExists := true, headerFound := false, headerVisible := true,
          hamburger := false, drawer := false, backdrop := false,
          isMobile := false, isSmallMobile := false, isOpen := false }).headerVisible
      = !(apparatusPresent (onResize 800
        { headerExists := true, headerFound := false, headerVisible := true,
          hamburger := false, drawer := false, backdrop := false,
          isMobile := false, isSmallMobile := false, isOpen := false })) := by
  exact mobileMode_invariant.2 800
    { headerExists := true, headerFound := false, headerVisible := true,
      hamburger := false, drawer := false, backdrop := false,
      isMobile := false, isSmallMobile := false, isOpen := false }
    rfl (fun _ => rfl) (by norm_num [mobileBreakpoint])

/-- Claim C5: a project with a truthy model-repository field under either
alias and no source-repository field gets exactly the huggingface action
button on its card, and its detail overlay reveals only the model-repository
link block; a truthy github field always takes precedence for the card
button. -/
theorem huggingfaceButton_spec :
    (∀ (p : Project) (i : ℕ) (m : ProjModal),
      truthy p.github = false →
      truthy (jsOr p.huggingface p.hugging_face) = true →
      (createProjectCard p i).button = some ProjButton.huggingface ∧
      (showProjectModal p m).githubVisible = false ∧
      (showProjectModal p m).hfVisible = true) ∧
    ∀ (p : Project) (i : ℕ), truthy p.github = true →
      (createProjectCard p i).button = some ProjButton.github := by
  constructor
  · intro p i m hg hf
    have hor : (truthy p.huggingface || truthy p.hugging_face) = true := by
      rw [← truthy_jsOr]; exact hf
    refine ⟨?_, ?_, ?_⟩
    · simp [createProjectCard, hg, hor]
    · rw [(showProjectModal_fields p m).2.2.2.1, hg]
    · rw [(showProjectModal_fields p m).2.2.2.2.1, hf]
  · intro p i hg
    simp [createProjectCard, hg]

/-- Witness for claim C5: a record carrying only a huggingface link. -/
theorem huggingfaceButton_spec_witness :
    (createProjectCard
        { title := some "Demo", description := some "A demo", image := none,
          github := none, huggingface := some "https://hf.example/m",
          hugging_face := none } 0).button = some ProjButton.huggingface ∧
    (showProjectModal
        { title := some "Demo", description := some "A demo", image := none,
          github := none, huggingface := some "https://hf.example/m",
          hugging_face := none } projModalInit).hfVisible = true := by
  have h := huggingfaceButton_spec.1
    { title := some "Demo", description := some "A demo", image := none,
      github := none, huggingface := some "https://hf.example/m",
      hugging_face := none } 0 projModalInit rfl (by decide)
  exact ⟨h.1, h.2.2⟩

/-- Claim C6: both render routines clear their container and rebuild it in
full from the record array, so rendering twice in a row yields the same child
list as rendering once, whatever the container held in between. -/
theorem render_idempotent :
    ∀ (w : ℚ) (certs : List Certificate) (prev mid : List CertNode)
      (projects : List Project) (pprev pmid : List ProjectCard),
      renderCertificates w certs (renderCertificates w certs mid)
          = renderCertificates w certs prev ∧
      renderProjects projects (renderProjects projects pmid)
          = renderProjects projects pprev := by
  intro w certs prev mid projects pprev pmid
  exact ⟨rfl, rfl⟩

/-- Counterexample to claim C7: a resolved click with scrollIntoView available
(the primary path) requests the section's absolute top edge itself, not the
top edge minus the header offset 80. -/
theorem navClick_offset_counterexample :
    navClick [("about", 500)] false false "#about"
        = { prevented := true, scrollTarget := some 500 } ∧
    some (500 : ℚ) ≠ some ((500 : ℚ) - headerOffset) := by
  refine ⟨rfl, ?_⟩
  simp only [headerOffset, Option.some.injEq]
  norm_num

/-- Claim C7 as amended: default navigation is prevented exactly when the
fragment resolves to an existing section; the requested scroll position is the
section's top edge on the primary scrollIntoView path, and the top edge minus
the header offset (80) only on the fallback paths taken when scrollIntoView is
unavailable or throws. -/
theorem navClick_spec :
    ∀ (dom : List (String × ℚ)) (sivThrows rectThrows : Bool) (href : String),
      ((navClick dom sivThrows rectThrows href).prevented = true ↔
        (startsWithHash href = true ∧
          (getElementTop dom (href.drop 1)).isSome = true)) ∧
      ∀ top : ℚ, startsWithHash href = true →
        getElementTop dom (href.drop 1) = some top →
        (navClick dom sivThrows rectThrows href).scrollTarget
          = some (if sivThrows = false then top else top - headerOffset) := by
  intro dom sivThrows rectThrows href
  constructor
  · by_cases hh : startsWithHash href = true
    · cases hres : getElementTop dom (href.drop 1) with
      | none => simp [navClick, hh, hres]
      | some top =>
        by_cases hs : sivThrows = false
        · simp [navClick, hh, hres, hs]
        · simp [navClick, hh, hres, hs]
    · simp [navClick, hh]
  · intro top hh hres
    by_cases hs : sivThrows = false
    · simp [navClick, hh, hres, hs]
    · have hs' : sivThrows = true := by simpa using hs
      simp [navClick, hh, hres, hs']

/-- Witness for claim C7 as amended: with scrollIntoView throwing, the click
on a link resolving to a section with top edge 500 requests position 420. -/
theorem navClick_spec_witness :
    (navClick [("about", 500)] true false "#about").scrollTarget
        = some ((500 : ℚ) - headerOffset) := by
  have h := (navClick_spec [("about", 500)] true false "#about").2 500 rfl rfl
  simpa using h

/-- Counterexample to claim C8: a certificate with no description field does
not render the overlay description as empty — it renders the fixed fallback
text. -/
theorem certModal_description_counterexample :
    (certShowModal
        { name := some "Course", issuer := some "Org", image := none,
          description := none } certModalInit).desc
      = "No description available." ∧
    (certShowModal
        { name := some "Course", issuer := some "Org", image := none,
          description := none } certModalInit).desc ≠ "" := by
  refine ⟨rfl, ?_⟩
  decide

/-- Claim C8 as amended: opening the detail overlay on a record with absent
optional fields never errors; absent certificate name, issuer and image render
as empty, an absent certificate description renders the fixed fallback text,
an absent project image renders the placeholder URL, an absent project
description renders the stringified undefined, and absent link fields leave
their blocks hidden. -/
theorem modal_absent_fields_spec :
    (∀ (c : Certificate) (m : CertModal),
      c.name = none → (certShowModal c m).title = "") ∧
    (∀ (c : Certificate) (m : CertModal),
      c.issuer = none → (certShowModal c m).issuer = "") ∧
    (∀ (c : Certificate) (m : CertModal),
      c.image = none → (certShowModal c m).imageUrl = "") ∧
    (∀ (c : Certificate) (m : CertModal),
      c.description = none →
        (certShowModal c m).desc = "No description available.") ∧
    (∀ (p : Project) (m : ProjModal),
      p.image = none → (showProjectModal p m).imageUrl = projPlaceholder) ∧
    (∀ (p : Project) (m : ProjModal),
      p.description = none → (showProjectModal p m).description = "undefined") ∧
    (∀ (p : Project) (m : ProjModal),
      p.github = none → (showProjectModal p m).githubVisible = false) ∧
    (∀ (p : Project) (m : ProjModal),
      p.huggingface = none → p.hugging_face = none →
        (showProjectModal p m).hfVisible = false) := by
  refine ⟨?_, ?_, ?_, ?_, ?_, ?_, ?_, ?_⟩
  · intro c m h
    rw [(certShowModal_fields c m).1, h]; rfl
  · intro c m h
    rw [(certShowModal_fields c m).2.1, h]; rfl
  · intro c m h
    rw [(certShowModal_fields c m).2.2.2.1, h]; rfl
  · intro c m h
    rw [(certShowModal_fields c m).2.2.1, h]; rfl
  · intro p m h
    rw [(showProjectModal_fields p m).2.1, h]; rfl
  · intro p m h
    rw [(showProjectModal_fields p m).2.2.1, h]; rfl
  · intro p m h
    rw [(showProjectModal_fields p m).2.2.2.1, h]; rfl
  · intro p m h1 h2
    rw [(showProjectModal_fields p m).2.2.2.2.1, h1, h2]; rfl

/-- Witness for claim C8 as amended, at a record with every optional field
absent. -/
theorem modal_absent_fields_spec_witness :
    (certShowModal { name := none, issuer := none, image := none, description := none }
        certModalInit).desc = "No description available." ∧
    (showProjectModal
        { title := some "P", description := none, image := none, github := none,
          huggingface := none, hugging_face := none } projModalInit).githubVisible
      = false := by
  exact ⟨modal_absent_fields_spec.2.2.2.1
      { name := none, issuer := none, image := none, description := none }
      certModalInit rfl,
    modal_absent_fields_spec.2.2.2.2.2.2.1
      { title := some "P", description := none, image := none, github := none,
        huggingface := none, hugging_face := none } projModalInit rfl⟩

/-- Counterexample to claim C9: project cards install no keydown handler (and
no tabindex), so pressing Enter with a project card focused reaches only the
document-level listener and leaves the overlay closed, while a pointer click
on the same card opens it. -/
theorem projectCard_keyboard_counterexample :
    (projCardOnClick
        { title := some "Proj", description := some "Desc", image := none,
          github := some "https://github.example/r", huggingface := none,
          hugging_face := none } projModalInit).shown = true ∧
    projDocKeydown "Enter" projModalInit = projModalInit ∧
    projDocKeydown " " projModalInit = projModalInit ∧
    projDocKeydown "Enter" projModalInit
      ≠ projCardOnClick
          { title := some "Proj", description := some "Desc", image := none,
            github := some "https://github.example/r", huggingface := none,
            hugging_face := none } projModalInit := by
  refine ⟨rfl, rfl, rfl, ?_⟩
  decide

/-- Claim C9 as amended: for certificate cards, keyboard activation on Enter
or Space behaves exactly as a pointer click (both run showModal on the card's
record); project cards have no keyboard activation — Enter and Space fall
through to the document listener, which changes nothing. -/
theorem certCard_keyboard_click_equiv :
    (∀ (key : String) (c : Certificate) (m : CertModal),
      key = "Enter" ∨ key = " " →
      certCardOnKeydown key c m = certCardOnClick c m) ∧
    ∀ (m : ProjModal),
      projDocKeydown "Enter" m = m ∧ projDocKeydown " " m = m := by
  constructor
  · intro key c m hkey
    simp [certCardOnKeydown, certCardOnClick, hkey]
  · intro m
    constructor
    · simp [projDocKeydown]
    · simp [projDocKeydown]

/-- Witness for claim C9 as amended: Enter on a certificate card equals a
click on it. -/
theorem certCard_keyboard_click_equiv_witness :
    certCardOnKeydown "Enter"
        { name := some "Course", issuer := some "Org", image := none,
          description := some "Text" } certModalInit
      = certCardOnClick
          { name := some "Course", issuer := some "Org", image := none,
            description := some "Text" } certModalInit :=
  certCard_keyboard_click_equiv.1 "Enter"
    { name := some "Course", issuer := some "Org", image := none,
      description := some "Text" } certModalInit (Or.inl rfl)

/-- Claim C10: removeProject with an index outside [0, length) leaves the
record array untouched and does not re-render; with an in-range index it
removes exactly the record at that position and re-renders. -/
theorem removeProject_spec :
    ∀ (i : ℤ) (s : PMState),
      (¬(0 ≤ i ∧ i < s.projects.length) → removeProject i s = s) ∧
      (0 ≤ i → i < s.projects.length →
        (removeProject i s).projects = s.projects.eraseIdx i.toNat ∧
        (removeProject i s).projects.length + 1 = s.projects.length ∧
        (removeProject i s).renderCount = s.renderCount + 1 ∧
        (removeProject i s).projectContainer
          = renderProjects (s.projects.eraseIdx i.toNat) s.projectContainer) := by
  intro i s
  constructor
  · intro hout
    simp [removeProject, hout]
  · intro h0 hlt
    have hin : 0 ≤ i ∧ i < s.projects.length := ⟨h0, hlt⟩
    have htn : i.toNat < s.projects.length := by omega
    have hsplice : jsSplice1 s.projects i.toNat = s.projects.eraseIdx i.toNat := by
      rw [jsSplice1, List.eraseIdx_eq_take_drop_succ]
    have hlen : (s.projects.eraseIdx i.toNat).length + 1 = s.projects.length := by
      rw [List.length_eraseIdx_add_one htn]
    refine ⟨?_, ?_, ?_, ?_⟩
    · simp [removeProject, hin, pmRender, hsplice]
    · simp [removeProject, hin, pmRender, hsplice, hlen]
    · simp [removeProject, hin, pmRender]
    · simp [removeProject, hin, pmRender, hsplice]

/-- A two-record state for exercising removeProject. -/
def pmTwoProjects : PMState :=
  { projects :=
      [{ title := some "P0", description := none, image := none, github := none,
         huggingface := none, hugging_face := none },
       { title := some "P1", description := none, image := none, github := none,
         huggingface := none, hugging_face := none }]
    projectContainer := [], sectionErrors := [], renderCount := 0 }

/-- Witness for claim C10: removing index 1 from a two-record state erases the
second record and re-renders once; index −1 changes nothing. -/
theorem removeProject_spec_witness :
    (removeProject 1 pmTwoProjects).projects = pmTwoProjects.projects.eraseIdx 1 ∧
    (removeProject 1 pmTwoProjects).renderCount = 1 ∧
    removeProject (-1) pmTwoProjects = pmTwoProjects := by
  have hin := (removeProject_spec 1 pmTwoProjects).2 (by norm_num)
    (by norm_num [pmTwoProjects])
  have hout := (removeProject_spec (-1) pmTwoProjects).1 (by norm_num)
  exact ⟨hin.1, hin.2.2.1, hout⟩
